import Mathlib

/-!
Verification of the Voice-Assistant repository (src/app.py) against its
natural-language specification.

The embedding is shallow: the Python string primitives used by the code
(`in`, `.lower()`, `.replace()`, `.strip()`, `.capitalize()`) are modelled
as executable Lean functions on `List Char`/`String`, and each Python
function of app.py (`speak`, `listen`, `get_weather`,
`get_wikipedia_summary`, and the dispatch body of `ai_talking_friend`)
becomes a Lean definition.  External collaborators (the speech recogniser,
the TTS engines, the weather HTTP endpoint, the wikipedia client, the
GPT-Neo generator) are modelled as oracle values/outcomes supplied as
arguments, exactly at the interface boundary the code uses them through.
-/

namespace VoiceAssistant

/-! ## Python string primitives -/

/-- Is `pat` a prefix of the second list (Python-style, by character equality)? -/
def isPrefixL : List Char → List Char → Bool
  | [], _ => true
  | _ :: _, [] => false
  | p :: ps, h :: hs => p == h && isPrefixL ps hs

/-- Does the second list contain `pat` as a contiguous sublist?
Models Python `pat in s`. -/
def containsL (pat : List Char) : List Char → Bool
  | [] => isPrefixL pat []
  | h :: hs => isPrefixL pat (h :: hs) || containsL pat hs

/-- Python `pat in hay` on strings. -/
def strContains (hay pat : String) : Bool :=
  containsL pat.data hay.data

/-- Replace every (non-overlapping, leftmost-first) occurrence of the
non-empty pattern `pat` by `rep`, recursing structurally on a fuel that
starts at the list's length: every step consumes at least one character
and one unit of fuel, so the `fuel = 0` fallback (which can only be
reached with an empty list) is never taken on a non-empty one.  Models
Python `str.replace` for a non-empty pattern. -/
def replaceGo (pat rep : List Char) : Nat → List Char → List Char
  | _, [] => []
  | 0, l => l
  | fuel + 1, h :: hs =>
    if isPrefixL pat (h :: hs) then
      rep ++ replaceGo pat rep fuel (hs.drop (pat.length - 1))
    else
      h :: replaceGo pat rep fuel hs

/-- Python `s.replace(pat, rep)` (all occurrences; the empty pattern is not
used by the program, so it is modelled as the identity). -/
def pyReplace (s pat rep : String) : String :=
  match pat.data with
  | [] => s
  | _ :: _ => ⟨replaceGo pat.data rep.data s.data.length s.data⟩

/-- The whitespace characters stripped by Python `str.strip()` (the ASCII
ones; the program only ever strips ASCII text). -/
def isPySpace (c : Char) : Bool :=
  c == ' ' || c == '\t' || c == '\n' || c == '\r' || c == '\x0b' || c == '\x0c'

/-- Python `s.strip()`. -/
def pyStrip (s : String) : String :=
  ⟨((s.data.dropWhile isPySpace).reverse.dropWhile isPySpace).reverse⟩

/-- Python `s.lower()` (ASCII, which covers every trigger word the program
matches on). -/
def pyLower (s : String) : String :=
  ⟨s.data.map Char.toLower⟩

/-- Python `s.capitalize()`: first character uppercased, all remaining
characters lowercased. -/
def pyCapitalize (s : String) : String :=
  match s.data with
  | [] => ""
  | c :: cs => ⟨Char.toUpper c :: cs.map Char.toLower⟩

/-! ## Intent classification (the `if`/`elif` chain of `ai_talking_friend`,
app.py lines 198-227) -/

inductive Intent
  | Farewell
  | WeatherQuery
  | EncyclopediaQuery
  | OpenChat
deriving DecidableEq

/-- The intent the loop body of `ai_talking_friend` routes a non-empty
utterance to, read off the `if`/`elif` chain exactly as written:
`"bye" in u.lower()`, then `"weather" in u.lower()`, then
`"Wikipedia" in u.lower() or "tell me about" in u.lower()`, else chat. -/
def classify (u : String) : Intent :=
  if strContains (pyLower u) "bye" then Intent.Farewell
  else if strContains (pyLower u) "weather" then Intent.WeatherQuery
  else if strContains (pyLower u) "Wikipedia" || strContains (pyLower u) "tell me about" then
    Intent.EncyclopediaQuery
  else Intent.OpenChat

/-- Modelled from the spec: the classifier as the specification words it —
case-insensitive substring tests in priority order, the Encyclopedia
trigger words being "wikipedia" and "tell me about".  Kept separate from
`classify` (which is read off the code) so the two can be compared. -/
def claimClassify (u : String) : Intent :=
  if strContains (pyLower u) "bye" then Intent.Farewell
  else if strContains (pyLower u) "weather" then Intent.WeatherQuery
  else if strContains (pyLower u) "wikipedia" || strContains (pyLower u) "tell me about" then
    Intent.EncyclopediaQuery
  else Intent.OpenChat

/-! ## The speak wrapper (app.py lines 87-112)

`speak` is `with engine_lock: try: <device access> except: <report>`.
The `with` statement acquires the lock on entry and releases it on every
exit, normal or exceptional; the `try`/`except Exception` catches any
error raised while driving the TTS device.  We model the trace of
lock/device events together with the exceptional status (`Except`), and
the two interchangeable device backends (Windows SAPI when `USE_WIN32`,
pyttsx3 otherwise) as a boolean choice fixed before the call. -/

inductive SpeakEv
  | acquireLock
  | deviceAccess (text : String)
  | reportFailure
  | releaseLock
deriving DecidableEq

/-- A traced, possibly-raising computation: the events it performed and
its outcome (`Except.error` = a Python exception escaping it). -/
abbrev Traced (α : Type) := List SpeakEv × Except String α

/-- Python `try: m except Exception: <handler events>`: any error from `m`
is swallowed after running the handler. -/
def tryCatch (m : Traced Unit) (handler : List SpeakEv) : Traced Unit :=
  match m with
  | (evs, Except.ok ()) => (evs, Except.ok ())
  | (evs, Except.error _) => (evs ++ handler, Except.ok ())

/-- Python `with engine_lock: m`: acquire before `m`, release on every
exit path (the release happens whether `m` returned or raised). -/
def withLock (m : Traced Unit) : Traced Unit :=
  match m with
  | (evs, r) => ([SpeakEv.acquireLock] ++ evs ++ [SpeakEv.releaseLock], r)

/-- The Windows-SAPI branch: `speaker.Speak(text, 0)`, which may raise. -/
def win32Speak (text : String) (deviceFails : Bool) : Traced Unit :=
  if deviceFails then ([SpeakEv.deviceAccess text], Except.error "SAPI error")
  else ([SpeakEv.deviceAccess text], Except.ok ())

/-- The pyttsx3 fallback branch: init/say/runAndWait/stop, any of which
may raise. -/
def pyttsx3Speak (text : String) (deviceFails : Bool) : Traced Unit :=
  if deviceFails then ([SpeakEv.deviceAccess text], Except.error "pyttsx3 error")
  else ([SpeakEv.deviceAccess text], Except.ok ())

/-- `speak(text)` of app.py: lock-guarded, exception-swallowing speech
output.  `useWin32` is the process-startup backend choice; `deviceFails`
says whether the underlying provider raises on this call. -/
def speak (text : String) (useWin32 deviceFails : Bool) : Traced Unit :=
  withLock
    (tryCatch
      (if useWin32 then win32Speak text deviceFails else pyttsx3Speak text deviceFails)
      [SpeakEv.reportFailure])

/-! ## The listen wrapper (app.py lines 115-142)

The recogniser interaction is modelled at its interface boundary: the
provider yields a transcript or raises one of the distinguished
conditions (`sr.UnknownValueError`, `sr.RequestError`, anything else). -/

inductive RecogOutcome
  | success (query : String)
  | unknownValue
  | requestFailed
  | otherFailure
deriving DecidableEq

/-- What `listen()` hands back: the transcript (with `""` the sentinel for
failure) and the apologies it spoke itself before returning. -/
structure ListenResult where
  transcript : String
  spoken : List String
deriving DecidableEq

/-- `listen()` of app.py, as a function of the recogniser outcome: the
three `except` arms each speak their apology and return `""`. -/
def listen : RecogOutcome → ListenResult
  | RecogOutcome.success q => ⟨q, []⟩
  | RecogOutcome.unknownValue =>
      ⟨"", ["Sorry, I didn't catch that. Could you repeat?"]⟩
  | RecogOutcome.requestFailed =>
      ⟨"", ["There seems to be an internet issue. Please check your connection."]⟩
  | RecogOutcome.otherFailure =>
      ⟨"", ["Something went wrong. Could you try again?"]⟩

/-! ## The weather adapter (app.py lines 157-170) -/

/-- The JSON fields `get_weather` reads.  `temp` and `feels_like` are kept
as their decimal renderings (the code only ever interpolates them into an
f-string, so their textual form is all that matters). -/
structure WeatherResp where
  cod : Int
  message : String
  description : String
  temp : String
  feels_like : String

/-- Outcome of the HTTP GET + JSON parse: a response object, or any
transport/parse exception. -/
inductive WeatherFetch
  | ok (resp : WeatherResp)
  | failed

/-- `get_weather(city, api_key)` of app.py as a function of the fetch
outcome. -/
def get_weather (city : String) : WeatherFetch → String
  | WeatherFetch.failed => "I couldn't fetch the weather details. Please try later."
  | WeatherFetch.ok resp =>
    if resp.cod ≠ 200 then "Error: " ++ resp.message
    else
      pyCapitalize city ++
        (" weather: " ++ resp.description ++ ", " ++ resp.temp ++
          "°C, feels like " ++ resp.feels_like ++ "°C.")

/-! ## The encyclopedia adapter (app.py lines 173-185) -/

/-- Outcome of `wikipedia.summary(query, sentences=7)` at its interface
boundary. -/
inductive WikiOutcome
  | summary (text : String)
  | disambiguation (options : List String)
  | pageNotFound
  | otherFailure

/-- Python `", ".join(l)`. -/
def joinComma : List String → String
  | [] => ""
  | [s] => s
  | s :: t :: rest => s ++ ", " ++ joinComma (t :: rest)

/-- `get_wikipedia_summary(query)` of app.py as a function of the provider
outcome: disambiguation lists the first three options, page-not-found and
any other exception map to fixed messages. -/
def get_wikipedia_summary : WikiOutcome → String
  | WikiOutcome.summary t => t
  | WikiOutcome.disambiguation options =>
      "Your query is too broad. Did you mean: " ++ joinComma (options.take 3) ++ "?"
  | WikiOutcome.pageNotFound =>
      "I couldn't find any information on that topic. Please try rephrasing."
  | WikiOutcome.otherFailure =>
      "I encountered an issue accessing Wikipedia. Please try again later."

/-! ## One turn of the dialogue loop (app.py lines 192-237)

The loop body between two `listen()` calls, as a function of the captured
utterance and of oracles for the sub-capture and the three lookups. -/

inductive Ev
  | speakEv (text : String)
  | subCaptureEv
  | weatherLookupEv (city : String)
  | wikiLookupEv (topic : String)
  | genLookupEv (prompt : String)
deriving DecidableEq

inductive TurnOutcome
  | continueLoop
  | ended
deriving DecidableEq

/-- The external collaborators one turn may consult: the result of the
`listen()` sub-capture at the city prompt, and the three lookup results. -/
structure Oracles where
  subCap : String
  weather : String → String
  wiki : String → String
  gen : String → String

/-- Topic extraction of the Wikipedia branch, exactly as written:
`user_query.replace("Wikipedia", "").replace("tell me about", "").strip()`. -/
def extractTopic (u : String) : String :=
  pyStrip (pyReplace (pyReplace u "Wikipedia" "") "tell me about" "")

/-- Modelled from the spec: topic extraction as claim C8 words it — the
trigger phrases removed are "wikipedia" (lowercase, matching the
case-insensitive intent trigger) and "tell me about". -/
def claimExtractTopic (u : String) : String :=
  pyStrip (pyReplace (pyReplace u "wikipedia" "") "tell me about" "")

/-- One iteration of the `while True` body of `ai_talking_friend`, given
the main captured utterance `u`: the events it performs in order, and
whether the loop continues or ends (`break`). -/
def turn (o : Oracles) (u : String) : List Ev × TurnOutcome :=
  if u = "" then ([], TurnOutcome.continueLoop)
  else if strContains (pyLower u) "bye" then
    ([Ev.speakEv "Goodbye! Talk to you soon!"], TurnOutcome.ended)
  else
    let body : List Ev :=
      if strContains (pyLower u) "weather" then
        [Ev.speakEv "Which city should I check?", Ev.subCaptureEv] ++
          (if o.subCap ≠ "" then
            [Ev.weatherLookupEv o.subCap, Ev.speakEv (o.weather o.subCap)]
          else
            [Ev.speakEv "I couldn't understand the city name. Please try again."])
      else if strContains (pyLower u) "Wikipedia" || strContains (pyLower u) "tell me about" then
        let topic := extractTopic u
        if topic ≠ "" then
          [Ev.speakEv ("Searching Wikipedia for " ++ topic ++ "..."),
            Ev.wikiLookupEv topic, Ev.speakEv (o.wiki topic)]
        else
          [Ev.speakEv "Please specify a topic for me to search."]
      else
        [Ev.speakEv "Thinking...", Ev.genLookupEv u, Ev.speakEv (o.gen u)]
    (body ++ [Ev.speakEv "Do you need help with anything else?"], TurnOutcome.continueLoop)

/-- A concrete set of oracles (empty sub-capture, constant lookups), used
by the concrete witnesses. -/
def silentOracles : Oracles :=
  ⟨"", fun _ => "", fun _ => "", fun _ => ""⟩

/-- Oracles whose sub-capture heard "bye please" at the city prompt. -/
def byeCityOracles : Oracles :=
  ⟨"bye please", fun _ => "", fun _ => "", fun _ => ""⟩

/-- Claim C1 (code bug): the spec says an utterance containing "wikipedia"
in any casing is classified `EncyclopediaQuery`, but the code tests
`"Wikipedia" in user_query.lower()` — a capital `W` can never occur in a
lowercased string, so the test never fires and `"wikipedia Einstein"` is
routed to `OpenChat` instead of `EncyclopediaQuery`. -/
theorem c1_wikipedia_trigger_dead :
    classify "wikipedia Einstein" = Intent.OpenChat ∧
    claimClassify "wikipedia Einstein" = Intent.EncyclopediaQuery := by
  constructor <;> decide

/-- Claim C2: `speak` acquires the lock before the device access, releases
it on every exit path (whether or not the synthesis provider raises), and
never propagates the provider's error: the outcome is `Except.ok ()` for
every text, backend choice, and failure behaviour. -/
theorem c2_speak_lock_discipline :
    ∀ (text : String) (useWin32 deviceFails : Bool),
      speak text useWin32 deviceFails =
        ([SpeakEv.acquireLock, SpeakEv.deviceAccess text] ++
          (if deviceFails then [SpeakEv.reportFailure] else []) ++
          [SpeakEv.releaseLock],
         Except.ok ()) := by
  intro text b f
  cases b <;> cases f <;> rfl

/-- Claim C3: `listen` never surfaces a raw provider error — each of the
three failure classes returns the `""` sentinel after speaking the
apology chosen for that class, and a success returns the transcript with
nothing spoken. -/
theorem c3_listen_failure_mapping :
    (∀ q, listen (RecogOutcome.success q) = ⟨q, []⟩) ∧
    listen RecogOutcome.unknownValue =
      ⟨"", ["Sorry, I didn't catch that. Could you repeat?"]⟩ ∧
    listen RecogOutcome.requestFailed =
      ⟨"", ["There seems to be an internet issue. Please check your connection."]⟩ ∧
    listen RecogOutcome.otherFailure =
      ⟨"", ["Something went wrong. Could you try again?"]⟩ :=
  ⟨fun _ => rfl, rfl, rfl, rfl⟩

/-- Claim C4: every non-empty utterance containing "bye" in any casing
makes the turn speak the farewell and end the loop, with no lookup and
nothing else, regardless of the rest of the utterance. -/
theorem c4_bye_ends_session :
    ∀ (o : Oracles) (u : String), u ≠ "" →
      strContains (pyLower u) "bye" = true →
      turn o u = ([Ev.speakEv "Goodbye! Talk to you soon!"], TurnOutcome.ended) := by
  intro o u hu hb
  simp [turn, hu, hb]

theorem c4_bye_ends_session_witness :
    turn silentOracles "OK BYE then, check the weather" =
      ([Ev.speakEv "Goodbye! Talk to you soon!"], TurnOutcome.ended) :=
  c4_bye_ends_session silentOracles "OK BYE then, check the weather"
    (by decide) (by decide)

/-- Claim C5: every non-empty utterance containing "weather" (any casing)
and not containing "bye" makes the turn prompt for a city and perform
exactly one sub-capture; if the sub-capture is empty the turn speaks the
city-not-understood error and performs no lookup, otherwise the one
weather lookup follows the sub-capture. -/
theorem c5_weather_subcapture :
    ∀ (o : Oracles) (u : String), u ≠ "" →
      strContains (pyLower u) "bye" = false →
      strContains (pyLower u) "weather" = true →
      turn o u =
        ([Ev.speakEv "Which city should I check?", Ev.subCaptureEv] ++
          (if o.subCap ≠ "" then
            [Ev.weatherLookupEv o.subCap, Ev.speakEv (o.weather o.subCap)]
          else
            [Ev.speakEv "I couldn't understand the city name. Please try again."]) ++
          [Ev.speakEv "Do you need help with anything else?"],
         TurnOutcome.continueLoop) := by
  intro o u hu hb hw
  simp [turn, hu, hb, hw]

theorem c5_weather_subcapture_witness :
    turn silentOracles "how is the WEATHER today" =
      ([Ev.speakEv "Which city should I check?", Ev.subCaptureEv,
        Ev.speakEv "I couldn't understand the city name. Please try again.",
        Ev.speakEv "Do you need help with anything else?"],
       TurnOutcome.continueLoop) := by
  rw [c5_weather_subcapture silentOracles "how is the WEATHER today"
    (by decide) (by decide) (by decide)]
  decide

/-- Claim C6: on the given 200 response for "paris" the weather lookup
renders exactly the expected line, and on any response whose `cod` is not
200 it returns `"Error: "` followed by the response's `message`. -/
theorem c6_weather_formatting :
    get_weather "paris" (WeatherFetch.ok ⟨200, "", "clear sky", "21.0", "20.5"⟩) =
      "Paris weather: clear sky, 21.0°C, feels like 20.5°C." ∧
    ∀ (city : String) (resp : WeatherResp), resp.cod ≠ 200 →
      get_weather city (WeatherFetch.ok resp) = "Error: " ++ resp.message := by
  constructor
  · decide
  · intro city resp h
    simp [get_weather, h]

theorem c6_weather_formatting_witness :
    get_weather "paris" (WeatherFetch.ok ⟨404, "city not found", "", "", ""⟩) =
      "Error: city not found" :=
  c6_weather_formatting.2 "paris" ⟨404, "city not found", "", "", ""⟩ (by decide)

/-- Claim C7: a disambiguation outcome yields the clarification message
listing the first (at most 3) offered options in order — the listed
options are a prefix of the offered list — a not-found outcome yields the
fixed "couldn't find" message, and any other failure yields the fixed
apology; the adapter is a total function, so it never raises. -/
theorem c7_wikipedia_outcomes :
    (∀ options : List String,
      get_wikipedia_summary (WikiOutcome.disambiguation options) =
        "Your query is too broad. Did you mean: " ++ joinComma (options.take 3) ++ "?" ∧
      (options.take 3).length ≤ 3 ∧
      ∃ rest, options = options.take 3 ++ rest) ∧
    get_wikipedia_summary WikiOutcome.pageNotFound =
      "I couldn't find any information on that topic. Please try rephrasing." ∧
    get_wikipedia_summary WikiOutcome.otherFailure =
      "I encountered an issue accessing Wikipedia. Please try again later." := by
  refine ⟨fun options => ⟨rfl, ?_, options.drop 3, (List.take_append_drop 3 options).symm⟩,
    rfl, rfl⟩
  exact List.length_take_le 3 options

/-- Claim C8, counterexample: the claim removes the lowercase trigger
"wikipedia"; the code removes the capitalized literal `"Wikipedia"`.  On
the utterance "tell me about wikipedia" the code extracts the topic
"wikipedia" and performs a lookup, while the claim's extraction yields ""
and predicts a prompt-for-topic with no lookup. -/
theorem c8_counterexample_literal_case :
    extractTopic "tell me about wikipedia" = "wikipedia" ∧
    claimExtractTopic "tell me about wikipedia" = "" ∧
    Ev.wikiLookupEv "wikipedia" ∈ (turn silentOracles "tell me about wikipedia").1 := by
  refine ⟨by decide, by decide, by decide⟩

/-- Claim C8, amended: for every utterance taking the Encyclopedia branch,
the topic is the utterance with the literal-case trigger phrases
`"Wikipedia"` (capitalized exactly so, as written in the code) and
`"tell me about"` removed and surrounding whitespace trimmed; an empty
topic yields the prompt-for-topic message and no lookup, a non-empty one
yields the search announcement and the lookup on that topic. -/
theorem c8_amended_topic_extraction :
    ∀ (o : Oracles) (u : String), u ≠ "" →
      strContains (pyLower u) "bye" = false →
      strContains (pyLower u) "weather" = false →
      (strContains (pyLower u) "Wikipedia" || strContains (pyLower u) "tell me about") = true →
      turn o u =
        ((if extractTopic u ≠ "" then
            [Ev.speakEv ("Searching Wikipedia for " ++ extractTopic u ++ "..."),
              Ev.wikiLookupEv (extractTopic u), Ev.speakEv (o.wiki (extractTopic u))]
          else
            [Ev.speakEv "Please specify a topic for me to search."]) ++
          [Ev.speakEv "Do you need help with anything else?"],
         TurnOutcome.continueLoop) := by
  intro o u hu hb hw hk
  simp [turn, hu, hb, hw, hk]

theorem c8_amended_topic_extraction_witness :
    turn silentOracles "tell me about Lean" =
      ([Ev.speakEv "Searching Wikipedia for Lean...", Ev.wikiLookupEv "Lean",
        Ev.speakEv "", Ev.speakEv "Do you need help with anything else?"],
       TurnOutcome.continueLoop) := by
  rw [c8_amended_topic_extraction silentOracles "tell me about Lean"
    (by decide) (by decide) (by decide) (by decide)]
  decide

/-- Claim C9: every successful weather lookup result begins with the city
rendered by Python `capitalize` — first character uppercased, every
remaining character lowercased — so "New York" is reported as
"New york". -/
theorem c9_city_capitalized :
    (∀ (city : String) (resp : WeatherResp), resp.cod = 200 →
      ∃ rest, get_weather city (WeatherFetch.ok resp) = pyCapitalize city ++ rest) ∧
    pyCapitalize "New York" = "New york" := by
  constructor
  · intro city resp h
    refine ⟨" weather: " ++ resp.description ++ ", " ++ resp.temp ++
      "°C, feels like " ++ resp.feels_like ++ "°C.", ?_⟩
    simp [get_weather, h]
  · decide

theorem c9_city_capitalized_witness :
    ∃ rest,
      get_weather "New York" (WeatherFetch.ok ⟨200, "", "clear sky", "21.0", "20.5"⟩) =
        pyCapitalize "New York" ++ rest :=
  c9_city_capitalized.1 "New York" ⟨200, "", "clear sky", "21.0", "20.5"⟩ rfl

/-- Claim C10: during the weather sub-capture every non-empty captured
utterance is passed verbatim to the weather lookup as the city — even one
containing "bye" — and the turn continues the loop rather than ending. -/
theorem c10_city_verbatim :
    ∀ (o : Oracles) (u : String), u ≠ "" →
      strContains (pyLower u) "bye" = false →
      strContains (pyLower u) "weather" = true →
      o.subCap ≠ "" →
      turn o u =
        ([Ev.speakEv "Which city should I check?", Ev.subCaptureEv,
          Ev.weatherLookupEv o.subCap, Ev.speakEv (o.weather o.subCap),
          Ev.speakEv "Do you need help with anything else?"],
         TurnOutcome.continueLoop) := by
  intro o u hu hb hw hc
  simp [turn, hu, hb, hw, hc]

theorem c10_city_verbatim_witness :
    turn byeCityOracles "weather" =
      ([Ev.speakEv "Which city should I check?", Ev.subCaptureEv,
        Ev.weatherLookupEv "bye please", Ev.speakEv "",
        Ev.speakEv "Do you need help with anything else?"],
       TurnOutcome.continueLoop) := by
  rw [c10_city_verbatim byeCityOracles "weather"
    (by decide) (by decide) (by decide) (by decide)]
  decide

end VoiceAssistant
